import Mathlib

set_option autoImplicit false

set_option linter.unusedVariables false

/-
Shallow embedding of the spotify-api.js sources:
  - src/src/managers/UserClient.ts        (UserClient manager methods)
  - src/unnamed/part_000                  (structures/Track.ts: LinkedTrack, Track)
The Cache module (createCacheStructArray, createCacheSavedStructArray) is
imported by UserClient.ts but its source is not part of the repository
snapshot; it is modelled from the spec where noted.
-/

/-- Model of a JavaScript/JSON value as it flows through this library:
primitives, arrays and objects. Objects are association lists of
string keys; numbers are modelled as integers (no claim in this
development depends on non-integral numerics). -/
inductive JsValue where
  | undefined
  | null
  | bool (b : Bool)
  | num (n : Int)
  | str (s : String)
  | arr (elems : List JsValue)
  | obj (fields : List (String × JsValue))

/-- JavaScript truthiness: undefined, null, false, 0 and the empty string
are falsy; every array and object (even empty) is truthy. -/
def truthy : JsValue → Bool
  | .undefined => false
  | .null => false
  | .bool b => b
  | .num n => decide (n ≠ 0)
  | .str s => decide (s ≠ "")
  | .arr _ => true
  | .obj _ => true

/-- A raw data object received from the API, as passed to the DTO
constructors: a list of key/value fields. -/
abbrev RawData := List (String × JsValue)

/-- Property read `data.key` on a raw object: the first binding of the key,
or undefined when the key is absent (JavaScript semantics). -/
def getKey : RawData → String → JsValue
  | [], _ => .undefined
  | (k, v) :: rest, key => if k = key then v else getKey rest key

/-- The JavaScript `key in data` test. -/
def hasKey : RawData → String → Bool
  | [], _ => false
  | (k, _) :: rest, key => k = key || hasKey rest key

/-- Property read `v.key` on an arbitrary value, restricted to receivers on
which JavaScript member access cannot throw: on an object it is a key
lookup, on any other value it yields undefined. The embedding only applies
this to receivers already known truthy (property access on a truthy
primitive yields undefined in JavaScript); access on null/undefined, which
throws, is modelled separately by jsMemberE. -/
def jsGet (v : JsValue) (key : String) : JsValue :=
  match v with
  | .obj fields => getKey fields key
  | _ => .undefined

/-- Runtime errors surfaced by the embedded methods: the named domain error
SpotifyAPIError (src/src/Error.ts) carrying its message, or a JavaScript
TypeError from member access on null/undefined. -/
inductive RunError where
  | apiError (msg : String)
  | typeError
deriving DecidableEq

/-- Property read `v.key` where the receiver may be null/undefined, in which
case JavaScript throws a TypeError. -/
def jsMemberE (v : JsValue) (key : String) : Except RunError JsValue :=
  match v with
  | .undefined => .error .typeError
  | .null => .error .typeError
  | .obj fields => .ok (getKey fields key)
  | _ => .ok .undefined

/-- Treating a value as an array to be iterated (Array.prototype.map inside
the cache factory): a non-array receiver throws a TypeError. -/
def asArrayE (v : JsValue) : Except RunError (List JsValue) :=
  match v with
  | .arr elems => .ok elems
  | _ => .error .typeError

/-- The LinkedTrack structure (src/unnamed/part_000, lines 14-58). Fields
are the ones its constructor assigns; the data property, which stores the
whole raw object, is kept as the raw field. -/
structure LinkedTrack where
  raw : RawData
  externalUrls : JsValue
  href : JsValue
  id : JsValue
  type : JsValue
  uri : JsValue

/-- The LinkedTrack constructor (src/unnamed/part_000, lines 32-42): every
exposed field is a verbatim copy of the corresponding snake_case input key. -/
def LinkedTrack.fromData (data : RawData) : LinkedTrack where
  raw := data
  externalUrls := getKey data "external_urls"
  href := getKey data "href"
  id := getKey data "id"
  type := getKey data "type"
  uri := getKey data "uri"

/-- The Track structure (src/unnamed/part_000, lines 63-151). Fields are the
ones its constructor assigns; the data property, which stores the whole raw
object, is kept as the raw field. -/
structure Track where
  raw : RawData
  availableMarkets : JsValue
  discNumber : JsValue
  duration : JsValue
  explicit : JsValue
  externalIds : JsValue
  externalUrls : JsValue
  href : JsValue
  id : JsValue
  name : JsValue
  popularity : JsValue
  previewUrl : JsValue
  trackNumber : JsValue
  type : JsValue
  uri : JsValue
  playable : JsValue
  restrictions : JsValue
  «local» : JsValue
  linkedFrom : JsValue

/-- The Track constructor (src/unnamed/part_000, lines 96-119). Every field
is a verbatim copy of its snake_case input key, with two exceptions taken
from the source: the local field is Boolean(data.is_local), a truthiness
coercion, and linkedFrom is assigned (verbatim) only when the key
linked_from is present, remaining undefined otherwise. -/
def Track.fromData (data : RawData) : Track where
  raw := data
  availableMarkets := getKey data "available_markets"
  discNumber := getKey data "disc_number"
  duration := getKey data "duration_ms"
  explicit := getKey data "explicit"
  externalIds := getKey data "external_ids"
  externalUrls := getKey data "external_urls"
  href := getKey data "href"
  id := getKey data "id"
  name := getKey data "name"
  popularity := getKey data "popularity"
  previewUrl := getKey data "preview_url"
  trackNumber := getKey data "track_number"
  type := getKey data "type"
  uri := getKey data "uri"
  playable := getKey data "is_playable"
  restrictions := getKey data "restrictions"
  «local» := .bool (truthy (getKey data "is_local"))
  linkedFrom := if hasKey data "linked_from" then getKey data "linked_from" else .undefined

/-- Values produced by the album getter of Track (src/unnamed/part_000,
lines 125-127). The body is `new SimplifiedAlbum(this.album)`: the
constructor argument is itself the result of the album getter, so a
SimplifiedAlbum produced here could only wrap another such value. -/
inductive SimplifiedAlbumVal : Type where
  | fromAlbum (data : SimplifiedAlbumVal) : SimplifiedAlbumVal

/-- Evaluation of the album getter of Track (src/unnamed/part_000, lines
125-127) with an explicit recursion-depth budget. The getter body is
`new SimplifiedAlbum(this.album)`; evaluating the argument `this.album`
re-enters the very same getter, so each step consumes one unit of budget
before the constructor can be applied; none models an exhausted call stack. -/
def Track.albumGetterEval (t : Track) : Nat → Option SimplifiedAlbumVal
  | 0 => none
  | n + 1 =>
    match Track.albumGetterEval t n with
    | some inner => some (.fromAlbum inner)
    | none => none

/-- The UserClient class fields (src/src/managers/UserClient.ts, lines
22-93). All data fields start undefined except type, initialized to the
string user by its field initializer; patchInfo later populates the rest. -/
structure UserClient where
  displayName : JsValue := .undefined
  id : JsValue := .undefined
  uri : JsValue := .undefined
  type : JsValue := .str "user"
  images : JsValue := .undefined
  totalFollowers : JsValue := .undefined
  externalURL : JsValue := .undefined
  product : JsValue := .undefined
  country : JsValue := .undefined
  email : JsValue := .undefined
  explicitContent : JsValue := .undefined

/-- A freshly constructed UserClient (constructor at lines 91-93 only
stores the client collaborator; data fields keep their initializers). -/
def UserClient.init : UserClient := {}

/-- UserClient.patchInfo (src/src/managers/UserClient.ts, lines 98-117),
applied to the resolved value of fetch on the path /me. A falsy payload
triggers `throw new SpotifyAPIError(...)`. Otherwise the fields are
repopulated from the payload; the only member access that can throw a
TypeError is `data.followers.total` (the accesses directly on the truthy
payload cannot, and `data.explicit_content.filter_enabled` and
`.filter_locked` are guarded by a truthiness test). In JavaScript the
assignments textually before `data.followers.total` take effect before
that TypeError propagates; the model returns the error without the
partial update, which no theorem below observes. explicitContent keeps
its previous value when explicit_content is falsy, as in the source. -/
def UserClient.patchInfo (u : UserClient) (data : JsValue) : Except RunError UserClient :=
  if truthy data then
    match jsMemberE (jsGet data "followers") "total" with
    | .error e => .error e
    | .ok total =>
      .ok { u with
        displayName := jsGet data "display_name"
        id := jsGet data "id"
        uri := jsGet data "uri"
        images := jsGet data "images"
        totalFollowers := total
        externalURL := jsGet data "external_urls"
        email := jsGet data "email"
        product := jsGet data "product"
        country := jsGet data "country"
        explicitContent :=
          if truthy (jsGet data "explicit_content") then
            .obj [("filterEnabled", jsGet (jsGet data "explicit_content") "filter_enabled"),
                  ("filterLocked", jsGet (jsGet data "explicit_content") "filter_locked")]
          else u.explicitContent }
  else
    .error (.apiError "Could not load private user data from the user authorized token.")

/-- UserClient.followsArtists (src/src/managers/UserClient.ts, lines
161-168), applied to the resolved value of fetch on /me/following/contains
with type artist: the response type is boolean[] | null, so it is modelled
as an optional list of booleans, none standing for null. The source maps
the response through `x => x || ids.map(() => false)`; a JavaScript array
is always truthy, so a non-null response is returned as is and a null one
is replaced by one false per queried id. -/
def followsArtists (ids : List String) (response : Option (List Bool)) : List Bool :=
  match response with
  | some flags => flags
  | none => ids.map (fun _ => false)

/-- UserClient.followsUsers (src/src/managers/UserClient.ts, lines
176-183): same shape as followsArtists, with type user in the query. -/
def followsUsers (ids : List String) (response : Option (List Bool)) : List Bool :=
  match response with
  | some flags => flags
  | none => ids.map (fun _ => false)

/-- UserClient.hasAlbums (src/src/managers/UserClient.ts, lines 298-301),
applied to the resolved value of fetch on /me/albums/contains. The source
continuation is `x => ids.map(() => false)`: the response x is ignored and
every id is mapped to false unconditionally. -/
def hasAlbums (ids : List String) (response : Option (List Bool)) : List Bool :=
  match response with
  | some _ => ids.map (fun _ => false)
  | none => ids.map (fun _ => false)

/-- UserClient.saveAlbums (src/src/managers/UserClient.ts, lines 272-277),
applied to the resolved value of the PUT fetch on /me/albums. The source
continuation is `x => x != null`; the loose inequality is false exactly on
null and undefined (both modelled by none) and true on every other value,
even falsy ones. -/
def saveAlbums (ids : List String) (response : Option JsValue) : Bool :=
  match response with
  | some _ => true
  | none => false

/-- UserClient.removeAlbums (src/src/managers/UserClient.ts, lines
285-290): same continuation `x => x != null` on the DELETE fetch. -/
def removeAlbums (ids : List String) (response : Option JsValue) : Bool :=
  match response with
  | some _ => true
  | none => false

/-- Modelled from the spec: the id under which the cache-aware factory
stores one raw item. The spec (section 4.2) keys the cache by the entity
ID; the API contract makes the id property of a raw item a string, and
the model collapses any non-string id to the empty string. -/
def idOf (item : JsValue) : String :=
  match jsGet item "id" with
  | .str s => s
  | _ => ""

/-- Modelled from the spec: a cached DTO instance. The ref field is the
allocation number handed out when the instance was constructed, so that
equality of CachedStruct values models reference identity of the
JavaScript objects; id is the entity ID it is stored under and raw the
item it was constructed from. -/
structure CachedStruct where
  ref : Nat
  id : String
  raw : JsValue

/-- Modelled from the spec: the ID-keyed lookup table of one entity type
tag inside the client (section 4.2: a simple map lookup/insert with no
eviction), together with the next free allocation number. -/
structure Cache where
  entries : List (String × CachedStruct)
  nextRef : Nat

/-- The empty cache of a fresh client. -/
def Cache.empty : Cache := ⟨[], 0⟩

/-- Lookup in the ID-keyed table: the first entry stored under the key. -/
def findEntry : List (String × CachedStruct) → String → Option CachedStruct
  | [], _ => none
  | (k, s) :: rest, key => if k = key then some s else findEntry rest key

/-- Modelled from the spec (section 4.2): the cache-aware factory for one
raw item. Given an entity type tag (selecting which store of the client the
Cache argument stands for), return the cached instance stored under the
item ID when present; otherwise construct a new instance, store it under
that ID and return it. -/
def createCacheStruct (tag : String) (c : Cache) (item : JsValue) : CachedStruct × Cache :=
  match findEntry c.entries (idOf item) with
  | some s => (s, c)
  | none =>
    let s : CachedStruct := ⟨c.nextRef, idOf item, item⟩
    (s, ⟨(idOf item, s) :: c.entries, c.nextRef + 1⟩)

/-- Modelled from the spec: createCacheStructArray as imported by
UserClient.ts from the Cache module, mapping each raw item through the
cache-aware factory in order and threading the store. -/
def createCacheStructArray (tag : String) : Cache → List JsValue → List CachedStruct × Cache
  | c, [] => ([], c)
  | c, item :: rest =>
    let p := createCacheStruct tag c item
    let q := createCacheStructArray tag p.2 rest
    (p.1 :: q.1, q.2)

/-- Modelled from the spec: a saved entity (the Saved wrapper of the
Interface module), pairing the added_at timestamp with the cached DTO. -/
structure SavedStruct where
  addedAt : JsValue
  item : CachedStruct

/-- Modelled from the spec: createCacheSavedStructArray as imported by
UserClient.ts from the Cache module and used with the albums tag: each raw
item of /me/albums holds added_at and the entity under the singular album
key; the entity goes through the cache-aware factory. -/
def createCacheSavedStructArray (tag : String) : Cache → List JsValue → List SavedStruct × Cache
  | c, [] => ([], c)
  | c, raw :: rest =>
    let p := createCacheStruct tag c (jsGet raw "album")
    let q := createCacheSavedStructArray tag p.2 rest
    ({ addedAt := jsGet raw "added_at", item := p.1 } :: q.1, q.2)

/-- Modelled from the spec: well-formedness of a cache store, stating that
every instance is stored under its own ID. It holds of the empty cache and
is preserved by the factory (proved below). -/
def Cache.WF (c : Cache) : Prop :=
  ∀ e ∈ c.entries, e.2.id = e.1

/-- The external fetch collaborator, as a function from path and
query-parameter object to the resolved JSON value (null on empty but
successful responses); a rejected promise is outside the model, matching
the spec which lets transport errors propagate unchanged. -/
abbrev Fetch := String → JsValue → JsValue

/-- The query-parameter object `{ time_range, limit, offset }` built
identically by getTopTracks and getTopArtists (lines 214-220 and 238-244)
from the camelCase options. -/
def topParams (options : JsValue) : JsValue :=
  .obj [("time_range", jsGet options "timeRange"),
        ("limit", jsGet options "limit"),
        ("offset", jsGet options "offset")]

/-- The query-parameter object `{ type: 'artist', ...options }` built by
getFollowingArtists (line 197). In the association-list model, where the
first binding of a key wins, the spread options precede the type default
so that an explicit type option overrides it, as the JavaScript spread
does. -/
def followingArtistsParams (options : RawData) : JsValue :=
  .obj (options ++ [("type", .str "artist")])

/-- UserClient.getPlaylists (src/src/managers/UserClient.ts, lines
125-133): fetch /me/playlists with the options as parameters; a falsy
response yields the empty array, otherwise fetchedData.items is passed to
createCacheStructArray with the playlists tag (iterating a non-array
there throws a TypeError). -/
def getPlaylists (fetch : Fetch) (c : Cache) (options : JsValue) :
    Except RunError (List CachedStruct × Cache) :=
  let fetchedData := fetch "/me/playlists" options
  if truthy fetchedData then
    match asArrayE (jsGet fetchedData "items") with
    | .error e => .error e
    | .ok items => .ok (createCacheStructArray "playlists" c items)
  else .ok ([], c)

/-- UserClient.getFollowingArtists (src/src/managers/UserClient.ts, lines
191-199): fetch /me/following with the artist type parameter; a falsy
response yields the empty array, otherwise fetchedData.artists.items is
passed to createCacheStructArray with the artists tag. The inner access
.items throws a TypeError when fetchedData.artists is null or undefined. -/
def getFollowingArtists (fetch : Fetch) (c : Cache) (options : RawData) :
    Except RunError (List CachedStruct × Cache) :=
  let fetchedData := fetch "/me/following" (followingArtistsParams options)
  if truthy fetchedData then
    match jsMemberE (jsGet fetchedData "artists") "items" with
    | .error e => .error e
    | .ok items =>
      match asArrayE items with
      | .error e => .error e
      | .ok arr => .ok (createCacheStructArray "artists" c arr)
  else .ok ([], c)

/-- UserClient.getTopTracks (src/src/managers/UserClient.ts, lines
207-223): fetch /me/top/tracks with the translated parameters; a falsy
response yields the empty array, otherwise fetchedData.items goes through
createCacheStructArray with the tracks tag. -/
def getTopTracks (fetch : Fetch) (c : Cache) (options : JsValue) :
    Except RunError (List CachedStruct × Cache) :=
  let fetchedData := fetch "/me/top/tracks" (topParams options)
  if truthy fetchedData then
    match asArrayE (jsGet fetchedData "items") with
    | .error e => .error e
    | .ok items => .ok (createCacheStructArray "tracks" c items)
  else .ok ([], c)

/-- UserClient.getTopArtists (src/src/managers/UserClient.ts, lines
231-247): fetch /me/top/artists with the translated parameters; a falsy
response yields the empty array, otherwise fetchedData.items goes through
createCacheStructArray with the artists tag. -/
def getTopArtists (fetch : Fetch) (c : Cache) (options : JsValue) :
    Except RunError (List CachedStruct × Cache) :=
  let fetchedData := fetch "/me/top/artists" (topParams options)
  if truthy fetchedData then
    match asArrayE (jsGet fetchedData "items") with
    | .error e => .error e
    | .ok items => .ok (createCacheStructArray "artists" c items)
  else .ok ([], c)

/-- UserClient.getSavedAlbums (src/src/managers/UserClient.ts, lines
255-264): fetch /me/albums with the options as parameters; a falsy
response yields the empty array, otherwise fetchedData.items goes through
createCacheSavedStructArray with the albums tag. -/
def getSavedAlbums (fetch : Fetch) (c : Cache) (options : JsValue) :
    Except RunError (List SavedStruct × Cache) :=
  let fetchedData := fetch "/me/albums" options
  if truthy fetchedData then
    match asArrayE (jsGet fetchedData "items") with
    | .error e => .error e
    | .ok items => .ok (createCacheSavedStructArray "albums" c items)
  else .ok ([], c)

/-- The mocked /me/playlists payload of the end-to-end scenario:
`{ items: [ {id: a1}, {id: a2} ] }`. -/
def playlistsPayload : JsValue :=
  .obj [("items", .arr [.obj [("id", .str "a1")], .obj [("id", .str "a2")]])]

/-- Access to a Track field by its exposed (camelCase) name, to quantify
over the field mapping of the constructor; none for names that are not
mapped fields. -/
def Track.fieldGet (t : Track) : String → Option JsValue
  | "availableMarkets" => some t.availableMarkets
  | "discNumber" => some t.discNumber
  | "duration" => some t.duration
  | "explicit" => some t.explicit
  | "externalIds" => some t.externalIds
  | "externalUrls" => some t.externalUrls
  | "href" => some t.href
  | "id" => some t.id
  | "name" => some t.name
  | "popularity" => some t.popularity
  | "previewUrl" => some t.previewUrl
  | "trackNumber" => some t.trackNumber
  | "type" => some t.type
  | "uri" => some t.uri
  | "playable" => some t.playable
  | "restrictions" => some t.restrictions
  | "local" => some t.«local»
  | "linkedFrom" => some t.linkedFrom
  | _ => none

/-- Access to a LinkedTrack field by its exposed name. -/
def LinkedTrack.fieldGet (t : LinkedTrack) : String → Option JsValue
  | "externalUrls" => some t.externalUrls
  | "href" => some t.href
  | "id" => some t.id
  | "type" => some t.type
  | "uri" => some t.uri
  | _ => none

/-- The (snake_case input key, exposed field name) pairs of the Track
constructor whose assignment is a plain verbatim copy of the input key;
this is every mapped field except local (a Boolean coercion). linkedFrom
appears here because its conditional assignment still equals the property
read of linked_from in every case: the guarded branch copies it and the
unguarded one leaves the JavaScript undefined that the property read of an
absent key yields. -/
def trackCopyPairs : List (String × String) :=
  [("available_markets", "availableMarkets"),
   ("disc_number", "discNumber"),
   ("duration_ms", "duration"),
   ("explicit", "explicit"),
   ("external_ids", "externalIds"),
   ("external_urls", "externalUrls"),
   ("href", "href"),
   ("id", "id"),
   ("name", "name"),
   ("popularity", "popularity"),
   ("preview_url", "previewUrl"),
   ("track_number", "trackNumber"),
   ("type", "type"),
   ("uri", "uri"),
   ("is_playable", "playable"),
   ("restrictions", "restrictions"),
   ("linked_from", "linkedFrom")]

/-- All (input key, exposed field name) pairs of the Track constructor,
including the coerced local field, for the bijection statement. -/
def trackFieldPairs : List (String × String) :=
  trackCopyPairs ++ [("is_local", "local")]

/-- The (input key, exposed field name) pairs of the LinkedTrack
constructor; every one is a verbatim copy. -/
def linkedTrackCopyPairs : List (String × String) :=
  [("external_urls", "externalUrls"),
   ("href", "href"),
   ("id", "id"),
   ("type", "type"),
   ("uri", "uri")]


/-- Reading an absent key yields undefined. -/
theorem getKey_of_hasKey_eq_false (data : RawData) (key : String)
    (h : hasKey data key = false) : getKey data key = .undefined := by
  induction data with
  | nil => rfl
  | cons e rest ih =>
    obtain ⟨k, v⟩ := e
    simp only [hasKey, Bool.or_eq_false_iff, decide_eq_false_iff_not] at h
    simp only [getKey, if_neg h.1]
    exact ih h.2

/-- Every field of Track listed in trackCopyPairs equals the property read
of its input key. -/
theorem trackCopy_exact (data : RawData) (key name : String)
    (hmem : (key, name) ∈ trackCopyPairs) :
    Track.fieldGet (Track.fromData data) name = some (getKey data key) := by
  simp only [trackCopyPairs] at hmem
  fin_cases hmem
  all_goals try rfl
  cases h : hasKey data "linked_from"
  · simp [Track.fieldGet, Track.fromData, h,
      getKey_of_hasKey_eq_false data "linked_from" h]
  · simp [Track.fieldGet, Track.fromData, h]

/-- Every field of LinkedTrack equals the property read of its input key. -/
theorem linkedCopy_exact (data : RawData) (key name : String)
    (hmem : (key, name) ∈ linkedTrackCopyPairs) :
    LinkedTrack.fieldGet (LinkedTrack.fromData data) name = some (getKey data key) := by
  simp only [linkedTrackCopyPairs] at hmem
  fin_cases hmem
  all_goals rfl

/-- C7 (corrected): for every raw input object, every mapped field of the
Track and LinkedTrack constructors except Track.local is a verbatim copy of
its snake_case input key; Track.local is the JavaScript boolean coercion of
is_local (hence equal to it exactly when is_local holds a boolean); and the
mapping between input keys and exposed field names is a bijection on the
mapped fields (no key and no exposed name occurs twice). -/
theorem track_field_roundtrip (data : RawData) (key name : String) (b : Bool) :
    ((key, name) ∈ trackCopyPairs →
      Track.fieldGet (Track.fromData data) name = some (getKey data key)) ∧
    ((key, name) ∈ linkedTrackCopyPairs →
      LinkedTrack.fieldGet (LinkedTrack.fromData data) name = some (getKey data key)) ∧
    (Track.fromData data).«local» = .bool (truthy (getKey data "is_local")) ∧
    (getKey data "is_local" = .bool b → (Track.fromData data).«local» = .bool b) ∧
    (trackFieldPairs.map Prod.fst).Nodup ∧
    (trackFieldPairs.map Prod.snd).Nodup ∧
    (linkedTrackCopyPairs.map Prod.fst).Nodup ∧
    (linkedTrackCopyPairs.map Prod.snd).Nodup := by
  refine ⟨trackCopy_exact data key name, linkedCopy_exact data key name, rfl, ?_,
    by decide, by decide, by decide, by decide⟩
  intro h
  simp [Track.fromData, h, truthy]

/-- Witness for C7 at a concrete input: the duration field is copied from
duration_ms, and with is_local bound to true the local field is preserved. -/
theorem track_field_roundtrip_witness :
    Track.fieldGet (Track.fromData [("duration_ms", .num 7), ("is_local", .bool true)])
      "duration" = some (getKey [("duration_ms", .num 7), ("is_local", .bool true)] "duration_ms") ∧
    (Track.fromData [("duration_ms", .num 7), ("is_local", .bool true)]).«local» = .bool true :=
  ⟨(track_field_roundtrip [("duration_ms", .num 7), ("is_local", .bool true)]
      "duration_ms" "duration" true).1 (by decide),
   (track_field_roundtrip [("duration_ms", .num 7), ("is_local", .bool true)]
      "duration_ms" "duration" true).2.2.2.1 (by rfl)⟩

/-- Counterexample to C7 as stated: with is_local bound to the string yes,
the exposed local field is the boolean true, not the input value. -/
theorem track_local_not_verbatim :
    (Track.fromData [("is_local", .str "yes")]).«local» ≠
      getKey [("is_local", .str "yes")] "is_local" := by
  simp [Track.fromData, getKey, truthy]

/-- C8 (corrected): for every raw input object, every mapped field of Track
and LinkedTrack other than Track.local is copied verbatim when its input
key is present and is undefined when the key is absent; Track.local is
instead the boolean false when is_local is absent (and a boolean coercion
when present), never null or undefined. -/
theorem track_field_copy_or_undefined (data : RawData) (key name : String) :
    ((key, name) ∈ trackCopyPairs →
      Track.fieldGet (Track.fromData data) name = some (getKey data key) ∧
      (hasKey data key = false →
        Track.fieldGet (Track.fromData data) name = some .undefined)) ∧
    ((key, name) ∈ linkedTrackCopyPairs →
      LinkedTrack.fieldGet (LinkedTrack.fromData data) name = some (getKey data key) ∧
      (hasKey data key = false →
        LinkedTrack.fieldGet (LinkedTrack.fromData data) name = some .undefined)) ∧
    (hasKey data "is_local" = false → (Track.fromData data).«local» = .bool false) := by
  refine ⟨fun hmem => ⟨trackCopy_exact data key name hmem, fun habs => ?_⟩,
    fun hmem => ⟨linkedCopy_exact data key name hmem, fun habs => ?_⟩, fun habs => ?_⟩
  · rw [trackCopy_exact data key name hmem, getKey_of_hasKey_eq_false data key habs]
  · rw [linkedCopy_exact data key name hmem, getKey_of_hasKey_eq_false data key habs]
  · simp [Track.fromData, getKey_of_hasKey_eq_false data "is_local" habs, truthy]

/-- Witness for C8 at a concrete input: on the empty raw object the href
field is undefined while local is false. -/
theorem track_field_copy_or_undefined_witness :
    Track.fieldGet (Track.fromData []) "href" = some .undefined ∧
    (Track.fromData []).«local» = .bool false :=
  ⟨((track_field_copy_or_undefined [] "href" "href").1 (by decide)).2 rfl,
   (track_field_copy_or_undefined [] "href" "href").2.2 rfl⟩

/-- Counterexample to C8 as stated: on the empty raw object, where every
input key is absent, the exposed local field is the boolean false, which is
neither null nor undefined. -/
theorem track_local_absent_not_undefined :
    (Track.fromData []).«local» = .bool false ∧
    (Track.fromData []).«local» ≠ .null ∧
    (Track.fromData []).«local» ≠ .undefined := by
  refine ⟨rfl, ?_, ?_⟩ <;> simp [Track.fromData, getKey, truthy]

/-- A successful table lookup finds an entry of the table. -/
theorem findEntry_mem {l : List (String × CachedStruct)} {key : String}
    {s : CachedStruct} (h : findEntry l key = some s) : (key, s) ∈ l := by
  induction l with
  | nil => simp [findEntry] at h
  | cons e rest ih =>
    obtain ⟨k, v⟩ := e
    by_cases hk : k = key
    · subst hk
      simp [findEntry] at h
      subst h
      exact List.mem_cons_self _ _
    · simp only [findEntry, if_neg hk] at h
      exact List.mem_cons_of_mem _ (ih h)

/-- On a well-formed store, the instance returned by the factory carries
the ID of the item it was asked for. -/
theorem createCacheStruct_id (tag : String) (c : Cache) (item : JsValue)
    (hwf : c.WF) : (createCacheStruct tag c item).1.id = idOf item := by
  unfold createCacheStruct
  cases h : findEntry c.entries (idOf item) with
  | none => rfl
  | some s => exact hwf _ (findEntry_mem h)

/-- The factory preserves well-formedness of the store. -/
theorem createCacheStruct_wf (tag : String) (c : Cache) (item : JsValue)
    (hwf : c.WF) : (createCacheStruct tag c item).2.WF := by
  unfold createCacheStruct
  cases h : findEntry c.entries (idOf item) with
  | some s => exact hwf
  | none =>
    intro e he
    rcases List.mem_cons.mp he with rfl | hmem
    · rfl
    · exact hwf _ hmem

/-- After a factory call, the store holds the returned instance under the
ID of the item. -/
theorem createCacheStruct_find (tag : String) (c : Cache) (item : JsValue) :
    findEntry (createCacheStruct tag c item).2.entries (idOf item) =
      some (createCacheStruct tag c item).1 := by
  unfold createCacheStruct
  cases h : findEntry c.entries (idOf item) with
  | some s => exact h
  | none => simp [findEntry]

/-- The factory call on an ID already in the store returns the cached
instance and leaves the store unchanged. -/
theorem createCacheStruct_cached (tag : String) (c : Cache) (item : JsValue)
    (s : CachedStruct) (h : findEntry c.entries (idOf item) = some s) :
    createCacheStruct tag c item = (s, c) := by
  unfold createCacheStruct
  rw [h]

/-- The factory call on an ID not in the store constructs a fresh instance
and stores it under that ID. -/
theorem createCacheStruct_new (tag : String) (c : Cache) (item : JsValue)
    (h : findEntry c.entries (idOf item) = none) :
    createCacheStruct tag c item =
      (⟨c.nextRef, idOf item, item⟩,
       ⟨(idOf item, ⟨c.nextRef, idOf item, item⟩) :: c.entries, c.nextRef + 1⟩) := by
  unfold createCacheStruct
  rw [h]

/-- The array form of the factory preserves well-formedness of the store. -/
theorem createCacheStructArray_wf (tag : String) (c : Cache)
    (items : List JsValue) (hwf : c.WF) :
    (createCacheStructArray tag c items).2.WF := by
  induction items generalizing c with
  | nil => exact hwf
  | cons item rest ih =>
    exact ih (createCacheStruct tag c item).2 (createCacheStruct_wf tag c item hwf)

/-- C9: the cache-aware factory contract. On a well-formed store: a call
finding a cached entry under the item ID returns it and leaves the store
unchanged; a call finding none returns a newly constructed instance (with
a fresh allocation number) now stored under that ID; two successive calls
with the same ID return the identical object, and two successive calls
with different IDs return distinct objects. -/
theorem cache_factory_identity (tag : String) (c : Cache)
    (item1 item2 : JsValue) (hwf : c.WF) :
    (idOf item1 = idOf item2 →
      (createCacheStruct tag (createCacheStruct tag c item1).2 item2).1 =
        (createCacheStruct tag c item1).1) ∧
    (idOf item1 ≠ idOf item2 →
      (createCacheStruct tag (createCacheStruct tag c item1).2 item2).1 ≠
        (createCacheStruct tag c item1).1) ∧
    (∀ s, findEntry c.entries (idOf item1) = some s →
      (createCacheStruct tag c item1).1 = s ∧ (createCacheStruct tag c item1).2 = c) ∧
    (findEntry c.entries (idOf item1) = none →
      (createCacheStruct tag c item1).1 = ⟨c.nextRef, idOf item1, item1⟩ ∧
      findEntry (createCacheStruct tag c item1).2.entries (idOf item1) =
        some (createCacheStruct tag c item1).1) := by
  refine ⟨?_, ?_, ?_, ?_⟩
  · intro hid
    have hfind := createCacheStruct_find tag c item1
    rw [hid] at hfind
    rw [createCacheStruct_cached tag _ item2 _ hfind]
  · intro hid heq
    have h1 : (createCacheStruct tag c item1).1.id = idOf item1 :=
      createCacheStruct_id tag c item1 hwf
    have h2 : (createCacheStruct tag (createCacheStruct tag c item1).2 item2).1.id =
        idOf item2 :=
      createCacheStruct_id tag _ item2 (createCacheStruct_wf tag c item1 hwf)
    rw [heq, h1] at h2
    exact hid h2
  · intro s hs
    rw [createCacheStruct_cached tag c item1 s hs]
    exact ⟨rfl, rfl⟩
  · intro hnone
    constructor
    · rw [createCacheStruct_new tag c item1 hnone]
    · exact createCacheStruct_find tag c item1

/-- Witness for C9 on the empty store with two concrete items: the call
repeated on the id a returns the identical object, and the call on the id
b returns a different object. -/
theorem cache_factory_identity_witness :
    Cache.empty.WF ∧
    (createCacheStruct "playlists" (createCacheStruct "playlists" Cache.empty
        (.obj [("id", .str "a")])).2 (.obj [("id", .str "a")])).1 =
      (createCacheStruct "playlists" Cache.empty (.obj [("id", .str "a")])).1 ∧
    (createCacheStruct "playlists" (createCacheStruct "playlists" Cache.empty
        (.obj [("id", .str "a")])).2 (.obj [("id", .str "b")])).1 ≠
      (createCacheStruct "playlists" Cache.empty (.obj [("id", .str "a")])).1 := by
  have hwf : Cache.empty.WF := by intro e he; simp [Cache.empty] at he
  refine ⟨hwf, ?_, ?_⟩
  · exact (cache_factory_identity "playlists" Cache.empty
      (.obj [("id", .str "a")]) (.obj [("id", .str "a")]) hwf).1 rfl
  · exact (cache_factory_identity "playlists" Cache.empty
      (.obj [("id", .str "a")]) (.obj [("id", .str "b")]) hwf).2.1 (by decide)

/-- C4: with the fetch of /me/playlists resolving to the payload
containing items with ids a1 and a2, getPlaylists resolves without error
to exactly two DTOs whose ids are a1 and a2 in that order. -/
theorem getPlaylists_scenario (c : Cache) (fetch : Fetch) (hwf : c.WF)
    (hf : fetch "/me/playlists" (.obj []) = playlistsPayload) :
    ∃ r, getPlaylists fetch c (.obj []) = .ok r ∧
      r.1.length = 2 ∧ r.1.map CachedStruct.id = ["a1", "a2"] := by
  have h1 : getPlaylists fetch c (.obj []) =
      .ok (createCacheStructArray "playlists" c
        [.obj [("id", .str "a1")], .obj [("id", .str "a2")]]) := by
    unfold getPlaylists
    rw [hf]
    rfl
  have e1 : (createCacheStruct "playlists" c (.obj [("id", .str "a1")])).1.id = "a1" :=
    createCacheStruct_id _ _ _ hwf
  have e2 : (createCacheStruct "playlists"
      (createCacheStruct "playlists" c (.obj [("id", .str "a1")])).2
      (.obj [("id", .str "a2")])).1.id = "a2" :=
    createCacheStruct_id _ _ _ (createCacheStruct_wf _ _ _ hwf)
  refine ⟨_, h1, by simp [createCacheStructArray], ?_⟩
  simp [createCacheStructArray, e1, e2]

/-- Witness for C4: the scenario run from the empty cache with the mocked
fetch returning the payload on every call. -/
theorem getPlaylists_scenario_witness :
    ∃ r, getPlaylists (fun _ _ => playlistsPayload) Cache.empty (.obj []) = .ok r ∧
      r.1.length = 2 ∧ r.1.map CachedStruct.id = ["a1", "a2"] :=
  getPlaylists_scenario Cache.empty (fun _ _ => playlistsPayload)
    (by intro e he; simp [Cache.empty] at he) rfl

/-- C5: every list-returning manager method of UserClient, on every options
value and cache state, resolves to the empty array without raising any
error when its fetch resolves to null. -/
theorem list_methods_null_response (fetch : Fetch) (c : Cache)
    (optsP optsT optsA optsS : JsValue) (optsF : RawData) :
    (fetch "/me/playlists" optsP = .null →
      getPlaylists fetch c optsP = .ok ([], c)) ∧
    (fetch "/me/following" (followingArtistsParams optsF) = .null →
      getFollowingArtists fetch c optsF = .ok ([], c)) ∧
    (fetch "/me/top/tracks" (topParams optsT) = .null →
      getTopTracks fetch c optsT = .ok ([], c)) ∧
    (fetch "/me/top/artists" (topParams optsA) = .null →
      getTopArtists fetch c optsA = .ok ([], c)) ∧
    (fetch "/me/albums" optsS = .null →
      getSavedAlbums fetch c optsS = .ok ([], c)) := by
  refine ⟨fun h => ?_, fun h => ?_, fun h => ?_, fun h => ?_, fun h => ?_⟩
  · unfold getPlaylists
    rw [h]
    rfl
  · unfold getFollowingArtists
    rw [h]
    rfl
  · unfold getTopTracks
    rw [h]
    rfl
  · unfold getTopArtists
    rw [h]
    rfl
  · unfold getSavedAlbums
    rw [h]
    rfl

/-- Witness for C5: all five methods run against a fetch constantly
resolving to null. -/
theorem list_methods_null_response_witness :
    getPlaylists (fun _ _ => .null) Cache.empty (.obj []) = .ok ([], Cache.empty) ∧
    getFollowingArtists (fun _ _ => .null) Cache.empty [] = .ok ([], Cache.empty) ∧
    getTopTracks (fun _ _ => .null) Cache.empty (.obj []) = .ok ([], Cache.empty) ∧
    getTopArtists (fun _ _ => .null) Cache.empty (.obj []) = .ok ([], Cache.empty) ∧
    getSavedAlbums (fun _ _ => .null) Cache.empty (.obj []) = .ok ([], Cache.empty) := by
  have h := list_methods_null_response (fun _ _ => .null) Cache.empty
    (.obj []) (.obj []) (.obj []) (.obj []) []
  exact ⟨h.1 rfl, h.2.1 rfl, h.2.2.1 rfl, h.2.2.2.1 rfl, h.2.2.2.2 rfl⟩

/-- The only error a member access can raise is a TypeError, never the
domain SpotifyAPIError. -/
theorem jsMemberE_error_eq (v : JsValue) (key : String) (e : RunError) :
    jsMemberE v key = .error e → e = .typeError := by
  cases v <;> intro h <;> simp_all [jsMemberE]

/-- C3: when the fetch of /me resolves to null, patchInfo raises the domain
SpotifyAPIError carrying a non-empty message; on an object payload it never
raises the domain error, and on a payload whose followers field is an
object it succeeds outright. -/
theorem patchInfo_error_policy (u : UserClient) :
    (∃ msg, UserClient.patchInfo u .null = .error (.apiError msg) ∧ msg ≠ "") ∧
    (∀ fields msg, UserClient.patchInfo u (.obj fields) ≠ .error (.apiError msg)) ∧
    (∀ fields ffields, getKey fields "followers" = .obj ffields →
      ∃ u2, UserClient.patchInfo u (.obj fields) = .ok u2) := by
  refine ⟨⟨_, rfl, by decide⟩, ?_, ?_⟩
  · intro fields msg h
    unfold UserClient.patchInfo at h
    rw [if_pos (show truthy (JsValue.obj fields) = true from rfl)] at h
    cases hmv : jsMemberE (jsGet (JsValue.obj fields) "followers") "total" with
    | error e =>
      have he := jsMemberE_error_eq _ _ _ hmv
      subst he
      rw [hmv] at h
      simp at h
    | ok total =>
      rw [hmv] at h
      simp at h
  · intro fields ffields hf
    have hm : jsMemberE (jsGet (JsValue.obj fields) "followers") "total" =
        .ok (getKey ffields "total") := by
      simp [jsGet, hf, jsMemberE]
    cases hres : UserClient.patchInfo u (.obj fields) with
    | ok u2 => exact ⟨u2, rfl⟩
    | error e =>
      exfalso
      unfold UserClient.patchInfo at hres
      rw [if_pos (show truthy (JsValue.obj fields) = true from rfl), hm] at hres
      simp at hres

/-- Witness for C3: on a fresh UserClient, the null response raises the
non-empty-message domain error, an empty-object payload raises no domain
error, and a payload carrying a followers object succeeds. -/
theorem patchInfo_error_policy_witness :
    (∃ msg, UserClient.patchInfo UserClient.init .null = .error (.apiError msg) ∧ msg ≠ "") ∧
    UserClient.patchInfo UserClient.init (.obj []) ≠ .error (.apiError "boom") ∧
    (∃ u2, UserClient.patchInfo UserClient.init
      (.obj [("followers", .obj [("total", .num 5)])]) = .ok u2) :=
  ⟨(patchInfo_error_policy UserClient.init).1,
   (patchInfo_error_policy UserClient.init).2.1 [] "boom",
   (patchInfo_error_policy UserClient.init).2.2
     [("followers", .obj [("total", .num 5)])] [("total", .num 5)] rfl⟩

/-- C1 (code bug evidence): hasAlbums ignores the fetch response. Queried
with the single id id1 while the server reports the membership flag true,
it resolves to the all-false array instead of the reported flags. -/
theorem hasAlbums_ignores_response :
    hasAlbums ["id1"] (some [true]) = [false] ∧
    hasAlbums ["id1"] (some [true]) ≠ [true] := by
  constructor
  · rfl
  · simp [hasAlbums]

/-- C2: followsArtists and followsUsers resolve, for a non-empty id list,
to the server-reported flag array verbatim when the response is non-null
(hence, under the contains-endpoint contract of one flag per queried id,
to an array of the same length as the ids, element by element the reported
flag), and to the all-false array of the length of the ids on null. -/
theorem follows_boolean_arrays (ids : List String) (flags : List Bool)
    (hne : ids ≠ []) (hlen : flags.length = ids.length) :
    followsArtists ids (some flags) = flags ∧
    (followsArtists ids (some flags)).length = ids.length ∧
    (followsArtists ids none).length = ids.length ∧
    (∀ b ∈ followsArtists ids none, b = false) ∧
    followsUsers ids (some flags) = flags ∧
    (followsUsers ids (some flags)).length = ids.length ∧
    (followsUsers ids none).length = ids.length ∧
    (∀ b ∈ followsUsers ids none, b = false) := by
  refine ⟨rfl, ?_, ?_, ?_, rfl, ?_, ?_, ?_⟩ <;>
    simp [followsArtists, followsUsers, hlen]

/-- Witness for C2 on two ids with server flags true and false. -/
theorem follows_boolean_arrays_witness :
    followsArtists ["x", "y"] (some [true, false]) = [true, false] ∧
    (followsUsers ["x", "y"] none).length = 2 :=
  ⟨(follows_boolean_arrays ["x", "y"] [true, false] (by simp) (by simp)).1,
   (follows_boolean_arrays ["x", "y"] [true, false] (by simp) (by simp)).2.2.2.2.2.2.1⟩

/-- C6: for a non-empty id list, saveAlbums and removeAlbums resolve to
false exactly when the fetch response is null, and to true exactly when it
is non-null. -/
theorem save_remove_albums (ids : List String) (r : Option JsValue)
    (hne : ids ≠ []) :
    (saveAlbums ids r = false ↔ r = none) ∧
    (saveAlbums ids r = true ↔ r ≠ none) ∧
    (removeAlbums ids r = false ↔ r = none) ∧
    (removeAlbums ids r = true ↔ r ≠ none) := by
  cases r <;> simp [saveAlbums, removeAlbums]

/-- Witness for C6: a null response yields false, a non-null (even falsy)
response yields true. -/
theorem save_remove_albums_witness :
    saveAlbums ["id1"] none = false ∧ removeAlbums ["id1"] (some .null) = true :=
  ⟨(save_remove_albums ["id1"] none (by simp)).1.mpr rfl,
   (save_remove_albums ["id1"] (some .null) (by simp)).2.2.2.mpr (by simp)⟩

/-- C10 (code bug evidence): evaluating the album getter of a constructed
Track never terminates with a value: the getter body evaluates this.album,
that is the getter itself, so every finite recursion-depth budget is
exhausted without a SimplifiedAlbum ever being produced. -/
theorem album_getter_never_terminates (t : Track) (fuel : Nat) :
    Track.albumGetterEval t fuel = none := by
  induction fuel with
  | zero => rfl
  | succ n ih => simp [Track.albumGetterEval, ih]
